import Mathlib

/-!
Shallow embedding of the trading control plane of the repository:
the risk manager (`src/risk/manager.py`, `src/risk/sizing.py`), the order
lifecycle (`src/execution/lifecycle.py`), the emergency controller
(`src/core/emergency_controller.py`), the position monitor
(`src/core/position_monitor.py`), the TWAP executor
(`src/execution/twap_executor.py`), the order router
(`src/execution/router.py`) and the signal deduplicator
(`src/execution/signal_deduplicator.py`).

Python floats are modelled as exact rationals (`ℚ`), wall-clock instants as
rationals (seconds), dictionaries holding positions as Lean structures, and
every exchange interaction as an explicit environment value describing the
responses the exchange would give.  Methods that mutate `self` become
functions threading an explicit state; methods that can raise return
`Except`/`Option` or an explicit outcome constructor.
-/

namespace Trading

/-! ### Numeric helpers

Python's `round` is round-half-to-even; `int(x)` truncates toward zero.
`ratFloorZ` is the mathematical floor of a rational, written with
`Int.fdiv` so that it evaluates by `decide`.
-/

def ratFloorZ (q : ℚ) : ℤ := ⌊q⌋

/-- Python `round(q)` (round half to even). -/
def roundHalfEven (q : ℚ) : ℤ :=
  let f := ratFloorZ q
  let r := q - (f : ℚ)
  if r < 1/2 then f
  else if r > 1/2 then f + 1
  else if f % 2 = 0 then f else f + 1

/-- Python `round(q, d)` (round half to even at `d` decimal places). -/
def roundTo (d : ℕ) (q : ℚ) : ℚ := (roundHalfEven (q * 10 ^ d) : ℚ) / 10 ^ d

/-- Python `int(q)` (truncation toward zero). -/
def pythonTrunc (q : ℚ) : ℤ := if 0 ≤ q then ratFloorZ q else -ratFloorZ (-q)

/-! ### Data model: signals and positions

`Signal` embeds `src/strategies/base.py`'s signal value object restricted to
the fields the claims use; the timestamp is kept as hour/minute of day, which
is all `generate_signal_id` reads.  `Position` embeds the position dictionary
registered with the risk manager (`main.py` and the monitors read exactly
these keys).  `opened_at` is seconds on the wall clock.
-/

structure Signal where
  symbol : String
  side : String
  entry_price : ℚ
  stop_loss : ℚ
  take_profit : ℚ
  tsHour : ℕ
  tsMinute : ℕ
  deriving Repr, DecidableEq

structure Position where
  id : String
  symbol : String
  side : String
  entry_price : ℚ
  quantity : ℚ
  stop_loss : Option ℚ
  take_profit : Option ℚ
  trailing_stop_percent : Option ℚ
  max_price : Option ℚ
  min_price : Option ℚ
  position_value_usdt : ℚ
  opened_at : Option ℚ
  deriving Repr, DecidableEq

/-! ### Risk manager (`src/risk/manager.py`)

The portfolio state owned by `RiskManager` together with the risk limits
fixed at construction.
-/

structure RiskManagerState where
  max_positions : ℕ
  max_daily_loss_percent : ℚ
  max_drawdown_percent : ℚ
  max_symbol_exposure_percent : ℚ
  min_usdt_reserve : ℚ
  open_positions : List Position
  daily_pnl : ℚ
  daily_start_balance : ℚ
  max_balance : ℚ
  deriving Repr, DecidableEq

/-- `RiskManager.set_daily_start_balance`. -/
def set_daily_start_balance (s : RiskManagerState) (balance : ℚ) : RiskManagerState :=
  { s with daily_start_balance := balance, max_balance := balance, daily_pnl := 0 }

/-- `RiskManager.update_daily_pnl`. -/
def update_daily_pnl (s : RiskManagerState) (current_balance : ℚ) : RiskManagerState :=
  { s with
    daily_pnl := current_balance - s.daily_start_balance,
    max_balance := if current_balance > s.max_balance then current_balance else s.max_balance }

/-- `RiskManager.add_position` (unconditional append). -/
def add_position (s : RiskManagerState) (p : Position) : RiskManagerState :=
  { s with open_positions := s.open_positions ++ [p] }

/-- `RiskManager.remove_position` (keep every position whose id differs). -/
def remove_position (s : RiskManagerState) (position_id : String) : RiskManagerState :=
  { s with open_positions := s.open_positions.filter (fun p => p.id ≠ position_id) }

/-! ### Position sizing (`src/risk/sizing.py`) -/

structure SizingParams where
  risk_per_trade_percent : ℚ
  max_position_size_usdt : ℚ
  min_position_size_usdt : ℚ
  deriving Repr, DecidableEq

structure PositionSize where
  quantity : ℚ
  position_value_usdt : ℚ
  risk_amount_usdt : ℚ
  risk_per_unit : ℚ
  risk_reward : ℚ
  deriving Repr, DecidableEq

/-- `PositionSizer.calculate_position_size`.  `ValueError` becomes
`Except.error`.  The source's `risk_reward_ratio` key is the field
`risk_reward` here. -/
def calculate_position_size (sz : SizingParams) (account_balance entry_price stop_loss : ℚ)
    (side : String) : Except String PositionSize :=
  let risk_per_unit := if side = "BUY" then entry_price - stop_loss else stop_loss - entry_price
  if risk_per_unit ≤ 0 then .error "invalid stop loss"
  else
    let risk_amount_usdt := account_balance * (sz.risk_per_trade_percent / 100)
    let quantity := risk_amount_usdt / risk_per_unit
    let position_value_usdt := quantity * entry_price
    let q2 := if position_value_usdt > sz.max_position_size_usdt
      then sz.max_position_size_usdt / entry_price else quantity
    let pv2 := if position_value_usdt > sz.max_position_size_usdt
      then sz.max_position_size_usdt else position_value_usdt
    let ra2 := if position_value_usdt > sz.max_position_size_usdt
      then q2 * risk_per_unit else risk_amount_usdt
    if pv2 < sz.min_position_size_usdt then
      let min_quantity := sz.min_position_size_usdt / entry_price
      if min_quantity * risk_per_unit ≤ account_balance * (sz.risk_per_trade_percent / 100) then
        .ok ⟨min_quantity, min_quantity * entry_price, min_quantity * risk_per_unit,
             risk_per_unit, risk_per_unit * 2 / risk_per_unit⟩
      else .error "position size too small"
    else .ok ⟨q2, pv2, ra2, risk_per_unit, risk_per_unit * 2 / risk_per_unit⟩

/-! ### Trade validation (`RiskManager.validate_trade`)

The microstructure validator (`src/risk/validation.py`) is a separate object
with no access to the risk manager's portfolio state; its verdict at a given
order size is abstracted as an oracle `microValid : ℚ → Option Bool`
(`none` models the validator raising, which the first call site catches and
the final call site propagates).  The outcome has three constructors:
approval, rejection, and an uncaught exception escaping `validate_trade`.
-/

inductive VTOutcome
  | approved (ps : PositionSize)
  | rejected (reason : String)
  | raised (msg : String)
  deriving Repr, DecidableEq

/-- `RiskManager.validate_trade`: the seven checks in source order.  The
returned pair is (outcome, portfolio state after the call); the method body
contains no assignment to the portfolio fields, so the embedding returns the
input state on every path. -/
def validate_trade (s : RiskManagerState) (sz : SizingParams) (microValid : ℚ → Option Bool)
    (signal : Signal) (account_balance : ℚ) : VTOutcome × RiskManagerState :=
  let estimated_size := account_balance * (sz.risk_per_trade_percent / 100)
  match microValid estimated_size with
  | none => (.rejected "microstructure validation error", s)
  | some mv1 =>
    if !mv1 then (.rejected "microstructure validation failed", s)
    else if s.open_positions.length ≥ s.max_positions then
      (.rejected "maximum positions reached", s)
    else
      let daily_loss_percent :=
        if s.daily_start_balance > 0 then s.daily_pnl / s.daily_start_balance * 100 else 0
      if daily_loss_percent ≤ -s.max_daily_loss_percent then
        (.rejected "daily loss limit reached", s)
      else
        let drawdown :=
          if s.max_balance > 0 then (s.max_balance - account_balance) / s.max_balance * 100 else 0
        if drawdown ≥ s.max_drawdown_percent then (.rejected "maximum drawdown reached", s)
        else
          let symbol_exposure :=
            ((s.open_positions.filter (fun p => p.symbol = signal.symbol)).map
              (fun p => p.position_value_usdt)).sum
          let symbol_exposure_percent :=
            if account_balance > 0 then symbol_exposure / account_balance * 100 else 0
          if symbol_exposure_percent ≥ s.max_symbol_exposure_percent then
            (.rejected "symbol exposure limit reached", s)
          else
            match calculate_position_size sz account_balance signal.entry_price
                signal.stop_loss signal.side with
            | .error e => (.rejected e, s)
            | .ok psize =>
              if account_balance - psize.position_value_usdt < s.min_usdt_reserve then
                (.rejected "insufficient USDT reserve", s)
              else
                match microValid psize.position_value_usdt with
                | none => (.raised "validator error", s)
                | some mv2 =>
                  if !mv2 then (.rejected "final slippage check failed", s)
                  else (.approved psize, s)

/-! ### Order lifecycle (`src/execution/lifecycle.py`)

`Order` embeds the `Order` dataclass (the free-form `metadata` dict is not
modelled; the closure result carries the realised P&L separately).
Timestamps are rational wall-clock seconds passed explicitly where the
source calls `datetime.now()`.
-/

inductive OrderStatus
  | pending
  | submitted
  | filled
  | partiallyFilled
  | rejected
  | cancelled
  | expired
  deriving Repr, DecidableEq

structure Order where
  id : String
  symbol : String
  side : String
  order_type : String
  quantity : ℚ
  price : Option ℚ
  status : OrderStatus
  filled_quantity : ℚ
  avg_fill_price : Option ℚ
  created_at : ℚ
  submitted_at : Option ℚ
  filled_at : Option ℚ
  exchange_order_id : Option String
  deriving Repr, DecidableEq

/-- The body of `OrderLifecycleManager.update_order_status` applied to one
order record.  An `exchange_order_id` argument is stored only on
`SUBMITTED`, and only when truthy (non-empty); fill details are stored only
on `FILLED`/`PARTIALLY_FILLED`; `filled_at` is stamped with the current
wall-clock instant on every `FILLED` update. -/
def applyOrderUpdate (o : Order) (status : OrderStatus) (filled_quantity : Option ℚ)
    (avg_fill_price : Option ℚ) (exchange_order_id : Option String) (now : ℚ) : Order :=
  let o1 := { o with status := status }
  let o2 :=
    if status = .submitted then
      { o1 with
        submitted_at := some now,
        exchange_order_id :=
          match exchange_order_id with
          | some e => if e = "" then o1.exchange_order_id else some e
          | none => o1.exchange_order_id }
    else o1
  if status = .filled ∨ status = .partiallyFilled then
    let o3 := match filled_quantity with
      | some fq => { o2 with filled_quantity := fq }
      | none => o2
    let o4 := match avg_fill_price with
      | some p => { o3 with avg_fill_price := some p }
      | none => o3
    if status = .filled then { o4 with filled_at := some now } else o4
  else o2

/-- `OrderLifecycleManager.update_order_status` over the `orders` map (an
association list keyed by order id); an id that is not present leaves the
map unchanged, as in the source. -/
def update_order_status (orders : List (String × Order)) (order_id : String)
    (status : OrderStatus) (filled_quantity : Option ℚ) (avg_fill_price : Option ℚ)
    (exchange_order_id : Option String) (now : ℚ) : List (String × Order) :=
  orders.map fun kv =>
    if kv.1 = order_id then
      (kv.1, applyOrderUpdate kv.2 status filled_quantity avg_fill_price exchange_order_id now)
    else kv

/-- One response of `exchange.get_order_status` as observed by a polling
loop; `err` models the call raising.  `price` is `none` when the response's
price field is absent or falsy; `avgPrice` likewise. -/
inductive PollResp
  | err
  | resp (status : String) (executedQty : ℚ) (price : Option ℚ) (avgPrice : Option ℚ)
  deriving Repr, DecidableEq

/-- `OrderLifecycleManager._wait_for_fill`: fold the polled responses until a
terminal status; an exhausted list is the timeout, which stamps the order
`EXPIRED`.  Returns the updated order record and the `filled` flag.
`update_order_status` on the owned record is applied directly. -/
def _wait_for_fill (o : Order) (eoid : String) (polls : List PollResp) (now : ℚ) :
    Order × Bool :=
  match polls with
  | [] => (applyOrderUpdate o .expired none none none now, false)
  | r :: rest =>
    match r with
    | .err => _wait_for_fill o eoid rest now
    | .resp st eq pr apr =>
      if st = "FILLED" then
        let fill_price := match pr with
          | some pv => pv
          | none => apr.getD 0
        (applyOrderUpdate o .filled (some eq) (some fill_price) (some eoid) now, true)
      else if st = "PARTIALLY_FILLED" then
        let fill_price := match pr with
          | some pv => pv
          | none => apr.getD 0
        _wait_for_fill
          (applyOrderUpdate o .partiallyFilled (some eq) (some fill_price) (some eoid) now)
          eoid rest now
      else if st = "CANCELED" ∨ st = "CANCELLED" then
        (applyOrderUpdate o .cancelled none none (some eoid) now, false)
      else if st = "REJECTED" ∨ st = "EXPIRED" then
        (applyOrderUpdate o .rejected none none (some eoid) now, false)
      else _wait_for_fill o eoid rest now

/-- The exchange interactions one `close_position` call can make:
the ticker read (used only when the caller did not pass a price), the
`place_order` response (`none`: the call raised; `some none`: no `orderId`
in the response; `some (some oid)`: accepted with that exchange id), and
the polled statuses. -/
structure CloseInput where
  tickerPrice : Option ℚ
  placeResult : Option (Option String)
  polls : List PollResp

/-- `OrderLifecycleManager.close_position`.  The result triple is
(outcome, risk-manager state after the call, position dictionary after the
call); `Except.error` stands for the raised `OrderExecutionError`.  The
in-place mutation `position['quantity'] = remaining` on a partial fill is
reflected both in the returned position and in the risk manager's list
(the list holds the same dictionary).  The wall-clock suffix of the locally
generated order id and the registration of the exit order in the lifecycle's
own order map are not modelled. -/
def close_position (rm : RiskManagerState) (p : Position) (emergency : Bool)
    (current_price? : Option ℚ) (inp : CloseInput) (now : ℚ) :
    Except String (Order × ℚ) × RiskManagerState × Position :=
  if p.symbol = "UNKNOWN" ∨ p.quantity ≤ 0 then (.error "invalid position", rm, p)
  else
    let price? := match current_price? with
      | some c => some c
      | none => inp.tickerPrice
    match price? with
    | none => (.error "could not get price", rm, p)
    | some _current_price =>
      let exit_side := if p.side = "BUY" then "SELL" else "BUY"
      let qr := roundTo 8 p.quantity
      match inp.placeResult with
      | none => (.error "position closure failed", rm, p)
      | some none => (.error "order placed but no order ID returned", rm, p)
      | some (some eoid) =>
        let exitOrder : Order :=
          { id := p.symbol ++ "_" ++ exit_side ++ "_close"
            symbol := p.symbol
            side := exit_side
            order_type := "market"
            quantity := qr
            price := none
            status := .submitted
            filled_quantity := 0
            avg_fill_price := none
            created_at := now
            submitted_at := none
            filled_at := none
            exchange_order_id := some eoid }
        let (o, filled) := _wait_for_fill exitOrder eoid inp.polls now
        if !filled then (.error "order timed out", rm, p)
        else if o.status = .rejected then
          -- kept to mirror the source; unreachable since `filled` implies FILLED
          (.error "order rejected by exchange", rm, p)
        else
          match o.avg_fill_price with
          | none => (.error "filled but missing price", rm, p)
          | some exit_price =>
            let fq := o.filled_quantity
            let p' := if fq < qr then { p with quantity := qr - fq } else p
            let rm1 :=
              if fq < qr then
                { rm with open_positions :=
                    rm.open_positions.map (fun q => if q.id = p.id then p' else q) }
              else rm
            let gross_pnl :=
              if p.side = "BUY" then (exit_price - p.entry_price) * fq
              else (p.entry_price - exit_price) * fq
            let net_pnl := gross_pnl - p.entry_price * qr * (1/1000)
              - exit_price * fq * (1/1000)
            let rm2 := if fq ≥ qr then remove_position rm1 p.id else rm1
            (.ok (o, net_pnl), rm2, p')

/-! ### Emergency controller (`src/core/emergency_controller.py`)

`CloseEnv` is what the exchange answers during one
`_close_single_position` call: the ticker read, the `place_order` response
and the single `get_order_status` read (`none` models the call raising).
-/

structure StatusResp where
  status : String
  executedQty : Option ℚ
  price : Option ℚ
  deriving Repr, DecidableEq

structure CloseEnv where
  ticker : Option ℚ
  placeResult : Option (Option String)
  statusResult : Option StatusResp
  deriving Repr, DecidableEq

/-- A market order sent to the exchange (the observable closure action). -/
structure PlacedOrder where
  symbol : String
  side : String
  quantity : ℚ
  deriving Repr, DecidableEq

/-- `EmergencyController._close_single_position`: returns the estimated
net P&L on a filled closure (`none` on any failure) together with the list
(empty or a singleton) of market orders that reached the exchange. -/
def _close_single_position (env : CloseEnv) (p : Position) : Option ℚ × List PlacedOrder :=
  if p.symbol = "UNKNOWN" ∨ p.quantity ≤ 0 then (none, [])
  else
    match env.ticker with
    | none => (none, [])
    | some current_price =>
      let exit_side := if p.side = "BUY" then "SELL" else "BUY"
      match env.placeResult with
      | none => (none, [])
      | some oid? =>
        let placed : List PlacedOrder := [⟨p.symbol, exit_side, p.quantity⟩]
        match oid? with
        | none => (none, placed)
        | some _oid =>
          match env.statusResult with
          | none => (none, placed)
          | some st =>
            if st.status = "FILLED" then
              let filled_qty := st.executedQty.getD p.quantity
              let fill_price := st.price.getD current_price
              let gross_pnl :=
                if p.side = "BUY" then (fill_price - p.entry_price) * filled_qty
                else (p.entry_price - fill_price) * filled_qty
              let net_pnl := gross_pnl - p.entry_price * p.quantity * (1/1000)
                - fill_price * filled_qty * (1/1000)
              (some net_pnl, placed)
            else (none, placed)

structure ClosureSummary where
  positions_closed : ℕ
  failed_closures : List String
  total_pnl : ℚ
  deriving Repr, DecidableEq

/-- `EmergencyController.close_all_positions`: snapshot the open positions,
close each (the source gathers them concurrently; each closure is
independent and `_close_single_position` removes its own position from the
risk manager on a filled closure, modelled here by folding left).  Returns
the summary, the risk-manager state afterwards, and every market order that
reached the exchange. -/
def close_all_positions (e : Position → CloseEnv) (rm : RiskManagerState) :
    ClosureSummary × RiskManagerState × List PlacedOrder :=
  rm.open_positions.foldl
    (fun acc p =>
      let (res, placed) := _close_single_position (e p) p
      match res with
      | some pnl =>
        ({ acc.1 with
            positions_closed := acc.1.positions_closed + 1,
            total_pnl := acc.1.total_pnl + pnl },
         remove_position acc.2.1 p.id, acc.2.2 ++ placed)
      | none =>
        ({ acc.1 with failed_closures := acc.1.failed_closures ++ [p.id] },
         acc.2.1, acc.2.2 ++ placed))
    (⟨0, [], 0⟩, rm, [])

/-- The controller's own mutable flags plus the risk manager it reads. -/
structure EmergencyState where
  emergency_mode : Bool
  trading_paused : Bool
  rm : RiskManagerState
  deriving Repr, DecidableEq

/-- `EmergencyController.trigger_emergency_stop`: a re-entrant call (the
`emergency_mode` flag already set) returns immediately without touching the
exchange; otherwise the flag is set before the first suspension point, all
open positions are closed, and trading is paused even if closures failed.
Returns the new state and the market orders issued by this invocation. -/
def trigger_emergency_stop (e : Position → CloseEnv) (s : EmergencyState) :
    EmergencyState × List PlacedOrder :=
  if s.emergency_mode then (s, [])
  else
    let (_, rm', orders) := close_all_positions e s.rm
    ({ emergency_mode := true, trading_paused := true, rm := rm' }, orders)

inductive TriggerKind
  | dailyLoss
  | positionLoss (symbol : String)
  | killSwitch
  deriving Repr, DecidableEq

/-- The per-position loss scan of `check_emergency_triggers`: first open
position whose unrealised loss fraction reaches the single-position
threshold; positions with unknown symbol, unavailable price, or
non-positive entry/quantity are skipped (errors continue the scan). -/
def findPositionLoss (maxSingle : ℚ) (priceOf : String → Option ℚ) :
    List Position → Option Position
  | [] => none
  | p :: rest =>
    if p.symbol = "UNKNOWN" then findPositionLoss maxSingle priceOf rest
    else
      match priceOf p.symbol with
      | none => findPositionLoss maxSingle priceOf rest
      | some current_price =>
        if p.entry_price ≤ 0 ∨ p.quantity ≤ 0 then findPositionLoss maxSingle priceOf rest
        else
          let unrealized_pnl :=
            if p.side = "BUY" then (current_price - p.entry_price) * p.quantity
            else (p.entry_price - current_price) * p.quantity
          let position_value := p.entry_price * p.quantity
          let pnl_percent := if position_value > 0 then unrealized_pnl / position_value else 0
          if pnl_percent ≤ -maxSingle then some p
          else findPositionLoss maxSingle priceOf rest

structure EmergencyConfig where
  max_daily_loss_percent : ℚ
  max_single_position_loss_percent : ℚ
  deriving Repr, DecidableEq

/-- Environment of one `check_emergency_triggers` call. -/
structure TriggerEnv where
  priceOf : String → Option ℚ
  killSwitch : Bool
  closeEnv : Position → CloseEnv

/-- `EmergencyController.check_emergency_triggers`: optionally refresh the
daily P&L, then test the daily-loss trigger (guarded by
`daily_start_balance > 0`), the per-position loss trigger, and the
kill-switch file, firing `trigger_emergency_stop` on the first hit.
Returns which trigger fired (if any) and the state afterwards. -/
def check_emergency_triggers (cfg : EmergencyConfig) (env : TriggerEnv)
    (s : EmergencyState) (current_balance : Option ℚ) :
    Option TriggerKind × EmergencyState :=
  let s1 := match current_balance with
    | some b => { s with rm := update_daily_pnl s.rm b }
    | none => s
  if s1.rm.daily_start_balance > 0 ∧
      s1.rm.daily_pnl / s1.rm.daily_start_balance ≤ -cfg.max_daily_loss_percent then
    (some .dailyLoss, (trigger_emergency_stop env.closeEnv s1).1)
  else
    match findPositionLoss cfg.max_single_position_loss_percent env.priceOf
        s1.rm.open_positions with
    | some p => (some (.positionLoss p.symbol), (trigger_emergency_stop env.closeEnv s1).1)
    | none =>
      if env.killSwitch then (some .killSwitch, (trigger_emergency_stop env.closeEnv s1).1)
      else (none, s1)

/-! ### Position monitor (`src/core/position_monitor.py`) -/

structure MonitorConfig where
  trailing_stop_enabled : Bool
  max_position_age_hours : Option ℚ
  adverse_spread_threshold : ℚ
  deriving Repr, DecidableEq

/-- Exchange responses available to `_close_position_with_reason`:
the `place_order` response and the single `get_order_status` read. -/
structure OrderAttemptEnv where
  placeResult : Option (Option String)
  statusResult : Option StatusResp
  deriving Repr, DecidableEq

/-- The attempt ends with the exchange reporting the closure order FILLED. -/
def fillAccepted (a : OrderAttemptEnv) : Bool :=
  match a.placeResult with
  | some (some _) =>
    match a.statusResult with
    | some st => st.status = "FILLED"
    | none => false
  | _ => false

/-- `PositionMonitor._close_position_with_reason`: place the opposite-side
market order, read its status once, and remove the position from the risk
manager exactly when the exchange reports FILLED; every failure leaves the
risk manager untouched (the next tick retries).  The P&L bookkeeping and
optional database write have no effect on the risk-manager state and are
not modelled. -/
def _close_position_with_reason (env : OrderAttemptEnv) (rm : RiskManagerState)
    (p : Position) : RiskManagerState × List PlacedOrder :=
  let exit_side := if p.side = "BUY" then "SELL" else "BUY"
  match env.placeResult with
  | none => (rm, [])
  | some oid? =>
    let placed : List PlacedOrder := [⟨p.symbol, exit_side, p.quantity⟩]
    match oid? with
    | none => (rm, placed)
    | some _oid =>
      match env.statusResult with
      | none => (rm, placed)
      | some st =>
        if st.status = "FILLED" then (remove_position rm p.id, placed)
        else (rm, placed)

/-- `PositionMonitor._check_stop_loss`. -/
def _check_stop_loss (p : Position) (current_price : ℚ) : Bool :=
  match p.stop_loss with
  | none => false
  | some sl =>
    if p.side = "BUY" then current_price ≤ sl
    else if p.side = "SELL" then current_price ≥ sl
    else false

/-- `PositionMonitor._check_take_profit`. -/
def _check_take_profit (p : Position) (current_price : ℚ) : Bool :=
  match p.take_profit with
  | none => false
  | some tp =>
    if p.side = "BUY" then current_price ≥ tp
    else if p.side = "SELL" then current_price ≤ tp
    else false

/-- `PositionMonitor._update_trailing_stop` on the position dictionary:
track the most favourable price and only ever tighten the stop. -/
def _update_trailing_stop (p : Position) (current_price : ℚ) : Position :=
  match p.trailing_stop_percent with
  | none => p
  | some tsp =>
    match p.stop_loss with
    | none => p
    | some sl =>
      if p.side = "BUY" then
        let improve := match p.max_price with
          | none => true
          | some mp => current_price > mp
        if improve then
          let new_stop := current_price * (1 - tsp)
          let p1 := { p with max_price := some current_price }
          if new_stop > sl then { p1 with stop_loss := some new_stop } else p1
        else p
      else if p.side = "SELL" then
        let improve := match p.min_price with
          | none => true
          | some mp => current_price < mp
        if improve then
          let new_stop := current_price * (1 + tsp)
          let p1 := { p with min_price := some current_price }
          if new_stop < sl then { p1 with stop_loss := some new_stop } else p1
        else p
      else p

/-- Environment of one per-position monitor check: the ticker read, the
boolean verdict of `_check_adverse_conditions` (that helper catches its own
errors and answers false on them), and the exchange responses a closure
attempt would see. -/
structure PositionTickEnv where
  ticker : Option ℚ
  adverse : Bool
  attempt : OrderAttemptEnv
  deriving Repr, DecidableEq

/-- `PositionMonitor._check_position` for a single position on one tick.
Returns the risk-manager state afterwards, the closure reason used (if a
closure was attempted), and the market orders sent.  Trailing-stop updates
mutate the position dictionary held in the risk manager's list. -/
def _check_position (cfg : MonitorConfig) (now : ℚ) (env : PositionTickEnv)
    (rm : RiskManagerState) (p : Position) :
    RiskManagerState × Option String × List PlacedOrder :=
  if p.symbol = "" ∨ p.symbol = "UNKNOWN" then (rm, none, [])
  else
    match env.ticker with
    | none => (rm, none, [])
    | some current_price =>
      if _check_stop_loss p current_price then
        let (rm', placed) := _close_position_with_reason env.attempt rm p
        (rm', some "STOP_LOSS_HIT", placed)
      else if _check_take_profit p current_price then
        let (rm', placed) := _close_position_with_reason env.attempt rm p
        (rm', some "TAKE_PROFIT_HIT", placed)
      else
        let rm1 :=
          if cfg.trailing_stop_enabled then
            let p' := _update_trailing_stop p current_price
            { rm with open_positions :=
                rm.open_positions.map (fun q => if q.id = p.id then p' else q) }
          else rm
        let ageExceeded :=
          match cfg.max_position_age_hours with
          | none => false
          | some maxAge =>
            match p.opened_at with
            | none => false
            | some t0 => (now - t0) / 3600 > maxAge
        if ageExceeded then
          let (rm', placed) := _close_position_with_reason env.attempt rm1 p
          (rm', some "MAX_AGE_EXCEEDED", placed)
        else if env.adverse then
          let (rm', placed) := _close_position_with_reason env.attempt rm1 p
          (rm', some "ADVERSE_CONDITIONS", placed)
        else (rm1, none, [])

/-! ### TWAP executor (`src/execution/twap_executor.py`)

`_check_spread` and `_execute_chunk` are abstracted by their observable
results per chunk index: the (ok, spread) pair the spread check returns
(it catches its own errors and defaults to ok), and either a raised
`TWAPExecutionError` or the chunk order's final status, filled quantity and
average price as set by the chunk's `_wait_for_fill`.
-/

structure TwapCfg where
  default_num_chunks : ℕ
  max_price_deviation : ℚ
  min_chunk_value : ℚ
  check_spread : Bool
  deriving Repr, DecidableEq

inductive ChunkRes
  | raised (msg : String)
  | done (status : OrderStatus) (filled_qty : ℚ) (avg_price : Option ℚ)
  deriving Repr, DecidableEq

structure TwapEnv where
  spread : ℕ → Bool × ℚ
  ticker : ℕ → Option ℚ
  chunk : ℕ → ChunkRes

structure TwapResult where
  orders : List Order
  total_filled : ℚ
  average_price : ℚ
  total_fees : ℚ
  slippage_percent : ℚ
  stopped_early : Bool
  stop_reason : Option String
  chunks_executed : ℕ
  total_chunks : ℕ
  deriving Repr, DecidableEq

/-- Chunk order record as `_execute_chunk` leaves it (exchange id and the
wall-clock id suffix not modelled). -/
def mkChunkOrder (symbol side : String) (qty : ℚ) (i : ℕ) (st : OrderStatus)
    (fq : ℚ) (ap : Option ℚ) (now : ℚ) : Order :=
  { id := symbol ++ "_" ++ side ++ "_twap_chunk_" ++ toString i
    symbol := symbol
    side := side
    order_type := "market"
    quantity := qty
    price := none
    status := st
    filled_quantity := fq
    avg_fill_price := ap
    created_at := now
    submitted_at := none
    filled_at := none
    exchange_order_id := none }

/-- The chunk loop of `execute_twap`.  `i` is the current chunk index,
`remaining = num_chunks - i` drives the recursion; the accumulator carries
the executed orders, total filled, total cost and total fees.  The result
is (orders, total_filled, total_cost, total_fees, stopped_early,
stop_reason).  The formatted percentages the source appends to its stop
reasons are dropped; the reason codes are kept verbatim. -/
def twapLoop (cfg : TwapCfg) (env : TwapEnv) (symbol side : String)
    (total_quantity current_price : ℚ) (num_chunks : ℕ) (chunk_size : ℚ) (now : ℚ) :
    ℕ → ℕ → List Order → ℚ → ℚ → ℚ →
    List Order × ℚ × ℚ × ℚ × Bool × Option String
  | _, 0, orders, tf, tc, fees => (orders, tf, tc, fees, false, none)
  | i, r + 1, orders, tf, tc, fees =>
    if cfg.check_spread ∧ (env.spread i).1 = false then
      (orders, tf, tc, fees, true, some "SPREAD_TOO_WIDE")
    else
      match env.ticker i with
      | none => (orders, tf, tc, fees, true, some "PRICE_FETCH_ERROR")
      | some new_price =>
        let price_deviation := |new_price - current_price| / current_price
        if price_deviation > cfg.max_price_deviation then
          (orders, tf, tc, fees, true, some "PRICE_DEVIATION")
        else
          let cs := if i = num_chunks - 1 then roundTo 8 (total_quantity - tf) else chunk_size
          if i = num_chunks - 1 ∧ cs ≤ 0 then (orders, tf, tc, fees, false, none)
          else
            match env.chunk i with
            | .raised msg => (orders, tf, tc, fees, true, some ("ERROR: " ++ msg))
            | .done st fq ap =>
              let order := mkChunkOrder symbol side cs i st fq ap now
              let counted := st = OrderStatus.filled ∨ st = OrderStatus.partiallyFilled
              -- `order.avg_fill_price or new_price`: Python `or` also replaces 0.0
              let fp := match ap with
                | some v => if v = 0 then new_price else v
                | none => new_price
              let tf' := if counted then tf + fq else tf
              let tc' := if counted then tc + fp * fq else tc
              let fees' := if counted then fees + fp * fq * (1/1000) else fees
              twapLoop cfg env symbol side total_quantity current_price num_chunks
                chunk_size now (i + 1) r (orders ++ [order]) tf' tc' fees'

/-- `TWAPExecutor.execute_twap`.  `num_chunks?`/`interval_seconds?` mirror
the optional arguments (`none` or a falsy `0` selects the config default);
the interval only paces the sleeps and is otherwise unused.  The
`execution_time_seconds` field (wall time) is not modelled. -/
def execute_twap (cfg : TwapCfg) (env : TwapEnv) (symbol side : String)
    (total_quantity current_price : ℚ) (num_chunks? : Option ℕ) (now : ℚ) :
    Except String TwapResult :=
  if total_quantity ≤ 0 then .error "invalid quantity"
  else if current_price ≤ 0 then .error "invalid price"
  else
    let num_chunks : ℕ := match num_chunks? with
      | none => cfg.default_num_chunks
      | some n => if n = 0 then cfg.default_num_chunks else n
    if num_chunks = 0 then .error "invalid num_chunks"
    else
      let chunk_size0 := roundTo 8 (total_quantity / (num_chunks : ℚ))
      let adjust := chunk_size0 * current_price < cfg.min_chunk_value
      let num_chunks1 :=
        if adjust then
          max 1 (pythonTrunc (total_quantity * current_price / cfg.min_chunk_value)).toNat
        else num_chunks
      let chunk_size :=
        if adjust then roundTo 8 (total_quantity / num_chunks1) else chunk_size0
      let (orders, tf, tc, fees, se, sr) :=
        twapLoop cfg env symbol side total_quantity current_price num_chunks1
          chunk_size now 0 num_chunks1 [] 0 0 0
      let average_price := if tf > 0 then tc / tf else 0
      let slippage :=
        if tf > 0 then
          let s := (average_price - current_price) / current_price * 100
          if side = "SELL" then -s else s
        else 0
      .ok
        { orders := orders
          total_filled := tf
          average_price := average_price
          total_fees := fees
          slippage_percent := slippage
          stopped_early := se
          stop_reason := sr
          chunks_executed := orders.length
          total_chunks := num_chunks1 }

/-! ### Order router (`src/execution/router.py`) -/

structure RouteDecision where
  order_type : String
  twap_splits : Option ℤ
  deriving Repr, DecidableEq

/-- `SmartOrderRouter.route_order`: a pure classifier of
(quote value, liquidity label, spread label).  The spread label is accepted
but never read by the source. -/
def route_order (small_order_threshold large_order_threshold : ℚ)
    (order_size_usdt : ℚ) (liquidity_quality spread_quality : String) : RouteDecision :=
  if liquidity_quality = "poor" then ⟨"reject", none⟩
  else if order_size_usdt < small_order_threshold then ⟨"market", none⟩
  else if order_size_usdt < large_order_threshold ∧ liquidity_quality = "good" then
    ⟨"limit", none⟩
  else if order_size_usdt ≥ large_order_threshold ∧ liquidity_quality = "good" then
    ⟨"twap", some (min 5 (max 3 (pythonTrunc (order_size_usdt / 2000))))⟩
  else ⟨"limit", none⟩

/-! ### Signal deduplicator (`src/execution/signal_deduplicator.py`)

The fingerprint string `"{SYMBOL}_{SIDE}_{PRICE}_{HH:MM}"` is modelled by
its components: upper-cased symbol and side, the price rounded to
`price_rounding` decimals held as the integer of scaled units, and the
hour and 5-minute bucket of the signal timestamp.
-/

abbrev Fingerprint := String × String × ℤ × ℕ × ℕ

/-- `SignalDeduplicator.generate_signal_id`; `ValueError` on a signal with
an empty symbol or side becomes `Except.error`. -/
def generate_signal_id (price_rounding : ℕ) (sig : Signal) : Except String Fingerprint :=
  if sig.symbol = "" then .error "Signal must have symbol"
  else if sig.side = "" then .error "Signal must have side"
  else
    .ok (sig.symbol.toUpper, sig.side.toUpper,
      roundHalfEven (sig.entry_price * 10 ^ price_rounding),
      sig.tsHour, sig.tsMinute / 5 * 5)

structure DedupState where
  cache_ttl : ℚ
  price_rounding : ℕ
  signal_cache : List (Fingerprint × ℚ)
  deriving Repr, DecidableEq

/-- `SignalDeduplicator._clean_expired`: drop entries strictly older than
the TTL. -/
def _clean_expired (st : DedupState) (now : ℚ) : DedupState :=
  { st with signal_cache := st.signal_cache.filter (fun e => ¬ now - e.2 > st.cache_ttl) }

/-- `SignalDeduplicator.is_duplicate` at wall-clock instant `now`: clean,
fingerprint (failures are treated as a new signal), look up, and insert on
a miss. -/
def is_duplicate (st : DedupState) (sig : Signal) (now : ℚ) : Bool × DedupState :=
  let st1 := _clean_expired st now
  match generate_signal_id st1.price_rounding sig with
  | .error _ => (false, st1)
  | .ok fp =>
    if st1.signal_cache.any (fun e => e.1 = fp) then (true, st1)
    else (false, { st1 with signal_cache := st1.signal_cache ++ [(fp, now)] })

/-! ### Helper lemmas and concrete fixtures -/

lemma clamp_trunc_eq_clamp_floor (q : ℚ) :
    min 5 (max 3 (pythonTrunc q)) = min 5 (max 3 (ratFloorZ q)) := by
  unfold pythonTrunc
  split
  · rfl
  · next hq =>
    have hq' : q < 0 := not_le.mp hq
    have h1 : ratFloorZ q ≤ 0 := Int.floor_nonpos hq'.le
    have h2 : (0:ℤ) ≤ ratFloorZ (-q) := Int.floor_nonneg.mpr (by linarith)
    rw [max_eq_left (by omega), max_eq_left (by omega)]

lemma remove_position_not_mem (rm : RiskManagerState) (pid : String) :
    ∀ q ∈ (remove_position rm pid).open_positions, q.id ≠ pid := by
  intro q hq
  simp only [remove_position, List.mem_filter, decide_not] at hq
  simpa using hq.2

/-- Sample position used by concrete witnesses. -/
def samplePos : Position :=
  { id := "p1", symbol := "BTCUSDT", side := "BUY", entry_price := 42000, quantity := 1/10
    stop_loss := some 41160, take_profit := some 42840, trailing_stop_percent := none
    max_price := none, min_price := none, position_value_usdt := 4200, opened_at := none }

/-- Risk-manager fixture with no open position and a one-position cap. -/
def rmEmpty : RiskManagerState :=
  { max_positions := 1, max_daily_loss_percent := 5, max_drawdown_percent := 15
    max_symbol_exposure_percent := 20, min_usdt_reserve := 10, open_positions := []
    daily_pnl := 0, daily_start_balance := 10000, max_balance := 10000 }

/-- Risk-manager fixture already holding `samplePos` at its one-position cap. -/
def rmFull : RiskManagerState :=
  { rmEmpty with open_positions := [samplePos] }

/-- Order fixture used by concrete witnesses and counterexamples. -/
def sampleOrder : Order :=
  { id := "o1", symbol := "BTCUSDT", side := "SELL", order_type := "market", quantity := 1
    price := none, status := .submitted, filled_quantity := 0, avg_fill_price := none
    created_at := 0, submitted_at := none, filled_at := none, exchange_order_id := none }

/-! ### Claim C3 -/

/-- C3 counterexample: the claim "`len(open_positions) ≤ max_positions`
after every mutation, in particular every `add_position` call" fails on the
code: `add_position` appends unconditionally, so a call in a state already
holding `max_positions` open positions exceeds the cap. -/
theorem C3_counterexample :
    ¬ (add_position rmFull samplePos).open_positions.length ≤ rmFull.max_positions := by
  simp [add_position, rmFull, rmEmpty]

/-- C3 (amended): `remove_position` always preserves
`len(open_positions) ≤ max_positions`, and `add_position` preserves it
exactly when invoked in a state strictly below the cap — which is the case
after an approved `validate_trade`, whose second check rejects whenever
`len(open_positions) ≥ max_positions`. -/
theorem C3_cap_preserved :
    (∀ (s : RiskManagerState) (p : Position),
      s.open_positions.length < s.max_positions →
      (add_position s p).open_positions.length ≤ s.max_positions)
    ∧ (∀ (s : RiskManagerState) (pid : String),
      s.open_positions.length ≤ s.max_positions →
      (remove_position s pid).open_positions.length ≤ s.max_positions)
    ∧ (∀ (s : RiskManagerState) (sz : SizingParams) (mv : ℚ → Option Bool)
        (sig : Signal) (bal : ℚ) (ps : PositionSize),
      (validate_trade s sz mv sig bal).1 = VTOutcome.approved ps →
      s.open_positions.length < s.max_positions) := by
  refine ⟨?_, ?_, ?_⟩
  · intro s p h
    simpa [add_position] using h
  · intro s pid h
    exact le_trans (List.length_filter_le _ _) h
  · intro s sz mv sig bal ps h
    by_contra hc
    push_neg at hc
    unfold validate_trade at h
    split at h
    · rcases hmv : mv (bal * (sz.risk_per_trade_percent / 100)) with _ | mv1
      · simp [hmv] at h
      · cases mv1 <;> simp [hmv] at h
    · omega

/-- C3 witness: both preservation statements at concrete states, and the
approval precondition at a concrete approved trade. -/
theorem C3_witness :
    ((add_position rmEmpty samplePos).open_positions.length ≤ rmEmpty.max_positions
      ∧ (remove_position rmFull "p1").open_positions.length ≤ rmFull.max_positions)
    ∧ rmEmpty.open_positions.length < rmEmpty.max_positions := by
  refine ⟨⟨?_, ?_⟩, ?_⟩
  · exact C3_cap_preserved.1 rmEmpty samplePos (by simp [rmEmpty])
  · exact C3_cap_preserved.2.1 rmFull "p1" (by simp [rmFull, rmEmpty])
  · exact C3_cap_preserved.2.2 rmEmpty ⟨2, 10000, 10⟩ (fun _ => some true)
      ⟨"BTCUSDT", "BUY", 100, 95, 110, 17, 3⟩ 10000 ⟨40, 4000, 200, 5, 2⟩
      (by norm_num [validate_trade, calculate_position_size, rmEmpty])

/-! ### Claim C6 -/

/-- C6: `route_order` is total — it returns exactly one of
market/limit/twap/reject — and follows the claimed rules: poor liquidity
rejects; below the small threshold routes market; between the thresholds
with good liquidity routes limit; at or above the large threshold with good
liquidity routes TWAP with `splits = clamp(⌊value / 2000⌋, 3, 5)`;
otherwise limit. -/
theorem C6_route_order_total_rules (small large v : ℚ) (liq spread : String) :
    ((route_order small large v liq spread).order_type = "market"
      ∨ (route_order small large v liq spread).order_type = "limit"
      ∨ (route_order small large v liq spread).order_type = "twap"
      ∨ (route_order small large v liq spread).order_type = "reject")
    ∧ (liq = "poor" → route_order small large v liq spread = ⟨"reject", none⟩)
    ∧ (liq ≠ "poor" → v < small →
        route_order small large v liq spread = ⟨"market", none⟩)
    ∧ (liq = "good" → small ≤ v → v < large →
        route_order small large v liq spread = ⟨"limit", none⟩)
    ∧ (liq = "good" → small ≤ v → large ≤ v →
        route_order small large v liq spread
          = ⟨"twap", some (min 5 (max 3 (ratFloorZ (v / 2000))))⟩)
    ∧ (liq ≠ "poor" → liq ≠ "good" → small ≤ v →
        route_order small large v liq spread = ⟨"limit", none⟩) := by
  refine ⟨?_, ?_, ?_, ?_, ?_, ?_⟩
  · unfold route_order
    split_ifs <;> simp
  · intro h
    simp [route_order, h]
  · intro h1 h2
    simp [route_order, h1, h2]
  · intro h1 h2 h3
    simp [route_order, h1, not_lt.mpr h2, h3]
  · intro h1 h2 h3
    rw [← clamp_trunc_eq_clamp_floor]
    simp [route_order, h1, not_lt.mpr h2, not_lt.mpr h3]
  · intro h1 h2 h3
    simp [route_order, h1, h2, not_lt.mpr h3]

/-- C6 witness: each routing rule exercised at a concrete input triple. -/
theorem C6_witness :
    route_order 1000 5000 1500 "poor" "good" = ⟨"reject", none⟩
    ∧ route_order 1000 5000 500 "good" "good" = ⟨"market", none⟩
    ∧ route_order 1000 5000 3000 "good" "good" = ⟨"limit", none⟩
    ∧ route_order 1000 5000 9999 "good" "good" = ⟨"twap", some 4⟩
    ∧ route_order 1000 5000 3000 "moderate" "good" = ⟨"limit", none⟩ := by
  refine ⟨?_, ?_, ?_, ?_, ?_⟩
  · exact (C6_route_order_total_rules 1000 5000 1500 "poor" "good").2.1 rfl
  · exact (C6_route_order_total_rules 1000 5000 500 "good" "good").2.2.1
      (by simp) (by norm_num)
  · exact (C6_route_order_total_rules 1000 5000 3000 "good" "good").2.2.2.1
      rfl (by norm_num) (by norm_num)
  · have h := (C6_route_order_total_rules 1000 5000 9999 "good" "good").2.2.2.2.1
      rfl (by norm_num) (by norm_num)
    rw [h]
    norm_num [ratFloorZ]
  · exact (C6_route_order_total_rules 1000 5000 3000 "moderate" "good").2.2.2.2.2
      (by simp) (by simp) (by norm_num)

/-! ### Claim C9 -/

/-- C9: with `daily_start_balance ≤ 0` (in particular before
`set_daily_start_balance` has seeded it) the daily-loss branch of
`check_emergency_triggers` is never taken: no emergency stop is attributed
to daily loss, however negative `daily_pnl` is. -/
theorem C9_no_daily_loss_trigger (cfg : EmergencyConfig) (env : TriggerEnv)
    (s : EmergencyState) (bal : Option ℚ)
    (h : s.rm.daily_start_balance ≤ 0) :
    (check_emergency_triggers cfg env s bal).1 ≠ some TriggerKind.dailyLoss := by
  unfold check_emergency_triggers
  cases bal with
  | none =>
    rw [if_neg (fun hc => absurd hc.1 (not_lt.mpr h))]
    split
    · simp
    · split <;> simp
  | some b =>
    rw [if_neg (fun hc => absurd hc.1 (not_lt.mpr (by simpa [update_daily_pnl] using h)))]
    split
    · simp
    · split <;> simp

/-- C9 witness: a state with an unseeded daily start balance and an
arbitrarily negative daily P&L never reports the daily-loss trigger. -/
theorem C9_witness :
    (check_emergency_triggers ⟨5/100, 10/100⟩
      ⟨fun _ => none, false, fun _ => ⟨none, none, none⟩⟩
      ⟨false, false, { rmEmpty with daily_start_balance := 0, daily_pnl := -(10^6) }⟩
      none).1 ≠ some TriggerKind.dailyLoss := by
  exact C9_no_daily_loss_trigger _ _ _ _ (by norm_num)

/-! ### Claim C10 -/

/-- C10: `validate_trade` never mutates the portfolio state: whatever the
outcome (approval, rejection, or a validator error escaping), the portfolio
state after the call is the input state — `open_positions`, `daily_pnl`,
`daily_start_balance` and `max_balance` are all unchanged — and a position
enters `open_positions` only through `add_position`, which appends it. -/
theorem C10_validate_trade_pure (s : RiskManagerState) (sz : SizingParams)
    (mv : ℚ → Option Bool) (sig : Signal) (bal : ℚ) :
    ((validate_trade s sz mv sig bal).2 = s
      ∧ (validate_trade s sz mv sig bal).2.open_positions = s.open_positions
      ∧ (validate_trade s sz mv sig bal).2.daily_pnl = s.daily_pnl
      ∧ (validate_trade s sz mv sig bal).2.daily_start_balance = s.daily_start_balance
      ∧ (validate_trade s sz mv sig bal).2.max_balance = s.max_balance)
    ∧ (∀ p, (add_position s p).open_positions = s.open_positions ++ [p]) := by
  have hstate : (validate_trade s sz mv sig bal).2 = s := by
    rcases hmv1 : mv (bal * (sz.risk_per_trade_percent / 100)) with _ | mv1
    · simp [validate_trade, hmv1]
    · rcases hcs : calculate_position_size sz bal sig.entry_price sig.stop_loss sig.side
        with e | psize
      · simp [validate_trade, hmv1, hcs, apply_ite Prod.snd]
      · rcases hmv2 : mv psize.position_value_usdt with _ | mv2
        · simp [validate_trade, hmv1, hcs, hmv2, apply_ite Prod.snd]
        · simp [validate_trade, hmv1, hcs, hmv2, apply_ite Prod.snd]
  exact ⟨⟨hstate, by rw [hstate], by rw [hstate], by rw [hstate], by rw [hstate]⟩,
    fun p => rfl⟩

/-! ### Claim C1 -/

/-- C1: a second `trigger_emergency_stop` invocation, issued after (or, in
the cooperative scheduler, anywhere past the re-entrancy check of) a first
one, is a no-op: it leaves the controller state untouched and sends no
closure order to the exchange — whatever the exchange answers (`e'`) — so
across the two invocations the emergency market closures of the open
positions are issued exactly once, namely by the first invocation when the
controller was not already in emergency mode. -/
theorem C1_second_trigger_noop (e e' : Position → CloseEnv) (s : EmergencyState) :
    trigger_emergency_stop e' (trigger_emergency_stop e s).1
      = ((trigger_emergency_stop e s).1, [])
    ∧ (s.emergency_mode = false →
        (trigger_emergency_stop e s).2 = (close_all_positions e s.rm).2.2) := by
  constructor
  · have hm : (trigger_emergency_stop e s).1.emergency_mode = true := by
      unfold trigger_emergency_stop
      split
      · next hc => exact hc
      · rcases hq : close_all_positions e s.rm with ⟨a, b, c⟩
        simp [hq]
    generalize hX : (trigger_emergency_stop e s).1 = X at hm ⊢
    unfold trigger_emergency_stop
    rw [if_pos hm]
  · intro hfresh
    unfold trigger_emergency_stop
    rw [if_neg (by simp [hfresh])]

/-- C1 witness: from a fresh controller state the first invocation issues
exactly the closure orders of `close_all_positions`. -/
theorem C1_witness :
    (trigger_emergency_stop (fun _ => ⟨none, none, none⟩)
        ⟨false, false, rmFull⟩).2
      = (close_all_positions (fun _ => ⟨none, none, none⟩) rmFull).2.2 := by
  exact (C1_second_trigger_noop (fun _ => ⟨none, none, none⟩)
    (fun _ => ⟨none, none, none⟩) ⟨false, false, rmFull⟩).2 rfl

/-! ### Claim C7 -/

/-- C7: on a fresh deduplicator, the first `is_duplicate` call on a valid
signal returns false and caches the signal's fingerprint with the call's
wall-clock time; a second call with any signal of the same fingerprint no
more than the TTL later returns true; a further call with the same
fingerprint more than the TTL after the first call returns false again. -/
theorem C7_dedup_ttl (ttl : ℚ) (D : ℕ) (sig1 sig2 sig3 : Signal)
    (t1 t2 t3 : ℚ) (fp : Fingerprint)
    (h1 : generate_signal_id D sig1 = .ok fp)
    (h2 : generate_signal_id D sig2 = .ok fp)
    (h3 : generate_signal_id D sig3 = .ok fp)
    (hin : t2 - t1 ≤ ttl) (hout : t3 - t1 > ttl) :
    (is_duplicate ⟨ttl, D, []⟩ sig1 t1).1 = false
    ∧ (is_duplicate ⟨ttl, D, []⟩ sig1 t1).2.signal_cache = [(fp, t1)]
    ∧ (is_duplicate (is_duplicate ⟨ttl, D, []⟩ sig1 t1).2 sig2 t2).1 = true
    ∧ (is_duplicate (is_duplicate (is_duplicate ⟨ttl, D, []⟩ sig1 t1).2 sig2 t2).2
        sig3 t3).1 = false := by
  have e1 : is_duplicate ⟨ttl, D, []⟩ sig1 t1 = (false, ⟨ttl, D, [(fp, t1)]⟩) := by
    simp [is_duplicate, _clean_expired, h1]
  have e2 : is_duplicate (⟨ttl, D, [(fp, t1)]⟩ : DedupState) sig2 t2
      = (true, ⟨ttl, D, [(fp, t1)]⟩) := by
    simp [is_duplicate, _clean_expired, h2, show t2 ≤ ttl + t1 by linarith]
  have e3 : (is_duplicate (⟨ttl, D, [(fp, t1)]⟩ : DedupState) sig3 t3).1 = false := by
    simp [is_duplicate, _clean_expired, h3, show ¬ t3 ≤ ttl + t1 by linarith]
  rw [e1]
  rw [e2]
  exact ⟨rfl, rfl, rfl, e3⟩

/-- Fixture signals for the deduplicator witness: both fingerprint to
`(BTCUSDT, BUY, 42151, 17:00)` with price rounding `D = 0`. -/
def sigA : Signal := ⟨"BTCUSDT", "BUY", 42150.75, 41000, 43000, 17, 3⟩

def sigB : Signal := ⟨"BTCUSDT", "BUY", 42150.9, 41000, 43000, 17, 4⟩

def fpAB : Fingerprint := ("BTCUSDT".toUpper, "BUY".toUpper, 42151, 17, 0)

/-- C7 witness: the duplicate suppressed 300 s after the first sighting and
accepted again 700 s after it (TTL 600 s). -/
theorem C7_witness :
    (is_duplicate ⟨600, 0, []⟩ sigA 1000).1 = false
    ∧ (is_duplicate ⟨600, 0, []⟩ sigA 1000).2.signal_cache = [(fpAB, 1000)]
    ∧ (is_duplicate (is_duplicate ⟨600, 0, []⟩ sigA 1000).2 sigB 1300).1 = true
    ∧ (is_duplicate (is_duplicate (is_duplicate ⟨600, 0, []⟩ sigA 1000).2 sigB 1300).2
        sigB 1700).1 = false := by
  have hA : generate_signal_id 0 sigA = .ok fpAB := by
    simp only [generate_signal_id, sigA, fpAB]
    norm_num [roundHalfEven, ratFloorZ]
    simp
  have hB : generate_signal_id 0 sigB = .ok fpAB := by
    simp only [generate_signal_id, sigB, fpAB]
    norm_num [roundHalfEven, ratFloorZ]
    simp
  exact C7_dedup_ttl 600 0 sigA sigB sigB 1000 1300 1700 fpAB hA hB hB
    (by norm_num) (by norm_num)

/-! ### Claim C8 -/

/-- Re-applying a FILLED update with the same fill details absorbs the
earlier one: only `filled_at` can differ, and it takes the later call's
wall-clock instant. -/
lemma applyOrderUpdate_filled_absorb (o : Order) (fq ap : Option ℚ)
    (e1 e2 : Option String) (t1 t2 : ℚ) :
    applyOrderUpdate (applyOrderUpdate o .filled fq ap e1 t1) .filled fq ap e2 t2
      = applyOrderUpdate o .filled fq ap e2 t2 := by
  cases o
  cases fq <;> cases ap <;> rfl

/-- C8 counterexample: the claim "a second
`update_order_status(order_id, FILLED)` with identical fill details leaves
the order record equal to the record after the first call" fails on the
code: the second call re-stamps `filled_at = datetime.now()`, so the two
records differ whenever the calls happen at different instants (here the
wall clock advances from 0 to 1). -/
theorem C8_counterexample :
    update_order_status
        (update_order_status [("o1", sampleOrder)] "o1" .filled (some 1) (some 100) none 0)
        "o1" .filled (some 1) (some 100) none 1
      ≠ update_order_status [("o1", sampleOrder)] "o1" .filled (some 1) (some 100) none 0 := by
  intro hcontra
  simp [update_order_status, applyOrderUpdate, sampleOrder] at hcontra

/-- C8 (amended): a second FILLED update with identical fill details is
idempotent on every field except `filled_at`: it is equivalent to having
applied the update once at the second call's instant, so the record after
the second call agrees with the record after the first on everything but
the `filled_at` stamp. -/
theorem C8_update_filled_absorbing (m : List (String × Order)) (oid : String)
    (fq ap : Option ℚ) (e1 e2 : Option String) (t1 t2 : ℚ) :
    update_order_status (update_order_status m oid .filled fq ap e1 t1)
        oid .filled fq ap e2 t2
      = update_order_status m oid .filled fq ap e2 t2 := by
  unfold update_order_status
  rw [List.map_map]
  apply List.map_congr_left
  intro kv _
  by_cases hkv : kv.1 = oid
  · simp [Function.comp, hkv, applyOrderUpdate_filled_absorb]
  · simp [Function.comp, hkv]

/-! ### Claim C2 -/

lemma close_with_reason_accepted (a : OrderAttemptEnv) (rm : RiskManagerState)
    (p : Position) (h : fillAccepted a = true) :
    (_close_position_with_reason a rm p).1 = remove_position rm p.id := by
  unfold fillAccepted at h
  rcases hp : a.placeResult with _ | oid? <;> rw [hp] at h
  · simp at h
  · rcases oid? with _ | oid
    · simp at h
    · rcases hs : a.statusResult with _ | st <;> rw [hs] at h
      · simp at h
      · simp only [decide_eq_true_eq] at h
        simp [_close_position_with_reason, hp, hs, h]

/-- C2: on a monitor tick, an open BUY position with a configured stop-loss
whose fetched price is ≤ the stop-loss (≥ for SELL) is closed with the
stop-loss reason — the stop-loss check runs before the take-profit check,
so this holds whatever the take-profit is — and when the exchange reports
the market closure FILLED the position is removed from the risk manager
within that same tick. -/
theorem C2_stop_loss_close_and_remove (cfg : MonitorConfig) (now : ℚ)
    (env : PositionTickEnv) (rm : RiskManagerState) (p : Position) (price sl : ℚ)
    (hsym1 : p.symbol ≠ "") (hsym2 : p.symbol ≠ "UNKNOWN")
    (hticker : env.ticker = some price) (hsl : p.stop_loss = some sl)
    (hhit : (p.side = "BUY" ∧ price ≤ sl) ∨ (p.side = "SELL" ∧ price ≥ sl)) :
    (_check_position cfg now env rm p).2.1 = some "STOP_LOSS_HIT"
    ∧ (fillAccepted env.attempt = true →
        ∀ q ∈ (_check_position cfg now env rm p).1.open_positions, q.id ≠ p.id) := by
  have hSL : _check_stop_loss p price = true := by
    rcases hhit with ⟨hside, hle⟩ | ⟨hside, hge⟩
    · simp [_check_stop_loss, hsl, hside, hle]
    · simp [_check_stop_loss, hsl, hside, hge]
  have hmain : _check_position cfg now env rm p
      = ((_close_position_with_reason env.attempt rm p).1, some "STOP_LOSS_HIT",
         (_close_position_with_reason env.attempt rm p).2) := by
    unfold _check_position
    rw [if_neg (by simp [hsym1, hsym2]), hticker]
    simp [hSL]
  constructor
  · rw [hmain]
  · intro hacc q hq
    rw [hmain] at hq
    have hrem := close_with_reason_accepted env.attempt rm p hacc
    rw [show ((_close_position_with_reason env.attempt rm p).1, some "STOP_LOSS_HIT",
        (_close_position_with_reason env.attempt rm p).2).1
        = (_close_position_with_reason env.attempt rm p).1 from rfl, hrem] at hq
    exact remove_position_not_mem rm p.id q hq

/-- Tick environment for the C2 witness: price 41000, adverse check false,
and an exchange that accepts and fills the closure order. -/
def envC2 : PositionTickEnv :=
  ⟨some 41000, false, ⟨some (some "7"), some ⟨"FILLED", some (1/10), some 41000⟩⟩⟩

/-- C2 witness: the BUY position at stop-loss 41160 observed at 41000 is
closed with the stop-loss reason and removed on the same tick. -/
theorem C2_witness :
    (_check_position ⟨false, none, 5/1000⟩ 0 envC2 rmFull samplePos).2.1
      = some "STOP_LOSS_HIT"
    ∧ ∀ q ∈ (_check_position ⟨false, none, 5/1000⟩ 0 envC2 rmFull
        samplePos).1.open_positions, q.id ≠ samplePos.id := by
  have h := C2_stop_loss_close_and_remove ⟨false, none, 5/1000⟩ 0 envC2 rmFull
    samplePos 41000 41160
    (by simp [samplePos]) (by simp [samplePos]) (by simp [envC2]) (by simp [samplePos])
    (Or.inl ⟨by simp [samplePos], by norm_num⟩)
  exact ⟨h.1, h.2 (by simp [fillAccepted, envC2])⟩

/-! ### Claim C4 -/

lemma map_id_replace (l : List Position) (pid : String) (pr : Position)
    (hpr : pr.id = pid) :
    (l.map (fun q => if q.id = pid then pr else q)).map Position.id
      = l.map Position.id := by
  rw [List.map_map]
  apply List.map_congr_left
  intro q _
  by_cases hq : q.id = pid
  · simp [Function.comp, hq, hpr]
  · simp [Function.comp, hq]

/-- C4: `close_position` removes the position from the risk manager exactly
when the closing order fully fills (`filled_quantity` reaches the rounded
position quantity); on a partial fill it sets the position's quantity to
the unfilled remainder and removes nothing (the ids of the open positions
are unchanged); and on every failure path — price unavailable, placement
raised, missing order id, timeout, rejection — it raises a closure error
with the risk-manager state and the position untouched. -/
theorem C4_close_position_removal (rm : RiskManagerState) (p : Position) (em : Bool)
    (cp? : Option ℚ) (inp : CloseInput) (now : ℚ) (res : Except String (Order × ℚ))
    (rm' : RiskManagerState) (p' : Position)
    (h : close_position rm p em cp? inp now = (res, rm', p')) :
    (∀ e, res = .error e → rm' = rm ∧ p' = p)
    ∧ (∀ o pnl, res = .ok (o, pnl) →
        (roundTo 8 p.quantity ≤ o.filled_quantity →
          rm' = remove_position rm p.id ∧ p' = p)
        ∧ (o.filled_quantity < roundTo 8 p.quantity →
          p'.quantity = roundTo 8 p.quantity - o.filled_quantity
          ∧ rm'.open_positions.map Position.id = rm.open_positions.map Position.id)) := by
  unfold close_position at h
  repeat' (first | split at h | simp only [] at h)
  all_goals rw [Prod.mk.injEq, Prod.mk.injEq] at h
  all_goals obtain ⟨rfl, rfl, rfl⟩ := h
  all_goals
    try exact ⟨fun e he => ⟨rfl, rfl⟩, fun o pnl ho => Except.noConfusion ho⟩
  all_goals
    refine ⟨fun e he => Except.noConfusion he, fun o pnl ho => ?_⟩
  all_goals injection ho with hop
  all_goals injection hop with hoo hpn
  all_goals subst hoo
  all_goals (
    constructor
    · intro hge
      first
        | exact ⟨rfl, rfl⟩
        | (exfalso; linarith)
    · intro hlt
      first
        | exact ⟨rfl, map_id_replace _ _ _ rfl⟩
        | (exfalso; linarith))

/-- Exchange responses for the C4 full-fill witness: order accepted with
exchange id 42 and one poll reporting it FILLED at 41000. -/
def inpC4 : CloseInput := ⟨none, some (some "42"), [.resp "FILLED" (1/10) (some 41000) none]⟩

/-- The exit order record the C4 full-fill witness run produces. -/
def oC4 : Order :=
  { id := "BTCUSDT_SELL_close", symbol := "BTCUSDT", side := "SELL", order_type := "market"
    quantity := 1/10, price := none, status := .filled, filled_quantity := 1/10
    avg_fill_price := some 41000, created_at := 0, submitted_at := none
    filled_at := some 0, exchange_order_id := some "42" }

/-- C4 witness: a fully filled closure removes the position, and a closure
whose `place_order` call raises leaves the risk manager and the position
untouched. -/
theorem C4_witness :
    ((close_position rmFull samplePos false (some 41000) inpC4 0).2.1
        = remove_position rmFull samplePos.id
      ∧ (close_position rmFull samplePos false (some 41000) inpC4 0).2.2 = samplePos)
    ∧ ((close_position rmFull samplePos false (some 41000) ⟨none, none, []⟩ 0).2.1 = rmFull
      ∧ (close_position rmFull samplePos false (some 41000) ⟨none, none, []⟩ 0).2.2
          = samplePos) := by
  constructor
  · have h := C4_close_position_removal rmFull samplePos false (some 41000) inpC4 0
      (close_position rmFull samplePos false (some 41000) inpC4 0).1
      (close_position rmFull samplePos false (some 41000) inpC4 0).2.1
      (close_position rmFull samplePos false (some 41000) inpC4 0).2.2 rfl
    have hres : (close_position rmFull samplePos false (some 41000) inpC4 0).1
        = .ok (oC4, -1083/10) := by
      simp [close_position, _wait_for_fill, applyOrderUpdate, samplePos, inpC4, oC4]
      norm_num [roundTo, roundHalfEven, ratFloorZ]
    exact (h.2 oC4 (-1083/10) hres).1
      (by norm_num [oC4, samplePos, roundTo, roundHalfEven, ratFloorZ])
  · have h := C4_close_position_removal rmFull samplePos false (some 41000)
      ⟨none, none, []⟩ 0
      (close_position rmFull samplePos false (some 41000) ⟨none, none, []⟩ 0).1
      (close_position rmFull samplePos false (some 41000) ⟨none, none, []⟩ 0).2.1
      (close_position rmFull samplePos false (some 41000) ⟨none, none, []⟩ 0).2.2 rfl
    exact h.1 "position closure failed" (by
      simp [close_position, samplePos]
      norm_num)

/-! ### Claim C5 -/

/-- C5: wherever the TWAP chunk loop re-checks the freshly fetched price
against the initial reference and the deviation exceeds the configured
maximum, the loop stops before placing the chunk order: the accumulated
orders, fills and fees are returned unchanged with `stopped_early = true`
and the `PRICE_DEVIATION` stop reason; and every `execute_twap` result
reports `chunks_executed` equal to the number of chunk orders recorded. -/
theorem C5_twap_price_deviation_stop (cfg : TwapCfg) (env : TwapEnv)
    (symbol side : String) (tq cp : ℚ) (nc : ℕ) (cs now : ℚ) (i r : ℕ)
    (orders : List Order) (tf tc fees : ℚ) (np : ℚ)
    (hspread : cfg.check_spread = true → (env.spread i).1 = true)
    (hticker : env.ticker i = some np)
    (hdev : |np - cp| / cp > cfg.max_price_deviation) :
    (twapLoop cfg env symbol side tq cp nc cs now i (r+1) orders tf tc fees
      = (orders, tf, tc, fees, true, some "PRICE_DEVIATION"))
    ∧ (∀ (cfg' : TwapCfg) (env' : TwapEnv) (sym' side' : String) (tq' cp' : ℚ)
        (nck : Option ℕ) (now' : ℚ) (res : TwapResult),
        execute_twap cfg' env' sym' side' tq' cp' nck now' = .ok res →
        res.chunks_executed = res.orders.length) := by
  constructor
  · have hcond : ¬ (cfg.check_spread = true ∧ (env.spread i).1 = false) := by
      rintro ⟨h1, h2⟩
      rw [hspread h1] at h2
      exact Bool.noConfusion h2
    rw [twapLoop, if_neg hcond, hticker]
    simp [hdev]
  · intro cfg' env' sym' side' tq' cp' nck now' res h
    unfold execute_twap at h
    repeat' (first | split at h | simp only [] at h)
    all_goals try exact Except.noConfusion h
    all_goals injection h with h1
    all_goals subst h1
    all_goals rfl

/-- TWAP configuration of the witness: 5 chunks, 1% deviation cap, 50 USDT
minimum chunk value, spread checking on. -/
def cfgC5 : TwapCfg := ⟨5, 1/100, 50, true⟩

/-- Witness environment: reference 42000, price jumps to 42500 before chunk
index 2; every executed chunk fills 0.1 at 42000. -/
def envC5 : TwapEnv :=
  ⟨fun _ => (true, 0), fun i => if i = 2 then some 42500 else some 42000,
   fun _ => .done .filled (1/10) (some 42000)⟩

/-- Witness environment whose very first ticker read fails. -/
def envFetchErr : TwapEnv := ⟨fun _ => (true, 0), fun _ => none, fun _ => .raised "x"⟩

/-- C5 witness: before chunk index 2 the price 42500 deviates 1.19% > 1%
from the reference 42000, so the loop stops with `PRICE_DEVIATION` and no
further chunk order; and a concrete `execute_twap` run reports
`chunks_executed` equal to its recorded chunk orders. -/
theorem C5_witness :
    (twapLoop cfgC5 envC5 "BTCUSDT" "BUY" (1/2) 42000 5 (1/10) 0 2 3 [] 0 0 0
      = ([], 0, 0, 0, true, some "PRICE_DEVIATION"))
    ∧ ∃ r, execute_twap cfgC5 envFetchErr "S" "BUY" 1 100 (some 1) 0 = .ok r
        ∧ r.chunks_executed = r.orders.length := by
  have H := C5_twap_price_deviation_stop cfgC5 envC5 "BTCUSDT" "BUY" (1/2) 42000 5
    (1/10) 0 2 2 [] 0 0 0 42500
    (fun _ => rfl) (by simp [envC5]) (by norm_num [cfgC5, envC5])
  refine ⟨H.1, ?_⟩
  have hok : ∃ r, execute_twap cfgC5 envFetchErr "S" "BUY" 1 100 (some 1) 0 = .ok r := by
    unfold execute_twap
    rw [if_neg (by norm_num : ¬ ((1:ℚ) ≤ 0)), if_neg (by norm_num : ¬ ((100:ℚ) ≤ 0))]
    exact ⟨_, rfl⟩
  obtain ⟨r, hr⟩ := hok
  exact ⟨r, hr, H.2 cfgC5 envFetchErr "S" "BUY" 1 100 (some 1) 0 r hr⟩

end Trading
